import Mathlib

/-!
Shallow embedding of the food-delivery backend (`src/main.py`, `src/schemas.py`).

Numbers: Python floats carrying money values are modelled as exact rationals
(`ℚ`); `round(x, 2)` is modelled by `round2` below.  Documents returned by the
store are modelled as structures carrying the fields the handlers touch; the
generic `serialize` utility, which works on raw dictionaries, is modelled over
an association-list document type `Doc`.  Mongo `ObjectId(s)` accepts a
24-character hex string and normalises it to lower case when converted back to
a string; `parseOid` models exactly that.  Store-generated identifiers
(`create_document`) are modelled by a counter in the database state producing
canonical (lower-case hex, length 24) id strings.
-/

namespace FoodDelivery

/-! ### Generic documents (Python dicts) and `serialize` -/

/-- A JSON-ish value stored in a document field. -/
inductive Value where
  | vStr : String → Value
  | vNum : ℚ → Value
  | vOid : String → Value
  | vBool : Bool → Value
  | vNull : Value
deriving DecidableEq, Repr

/-- Python `str()` on the values we model; `str(ObjectId)` is its hex string. -/
def valueStr : Value → String
  | .vStr s => s
  | .vNum q => toString q
  | .vOid s => s
  | .vBool b => if b then "True" else "False"
  | .vNull => "None"

/-- A document: association list from field name to value (Python dict). -/
abbrev Doc := List (String × Value)

/-- Dict lookup: first binding wins (dict keys are unique). -/
def docGet (d : Doc) (k : String) : Option Value :=
  (d.find? (fun kv => kv.1 == k)).map (fun kv => kv.2)

/-- Dict `pop`/`del`: remove the (first) binding of `k`. -/
def docErase (d : Doc) (k : String) : Doc :=
  match d with
  | [] => []
  | (k', v) :: rest => if k' = k then rest else (k', v) :: docErase rest k

/-- Dict assignment `d[k] = v`: update in place if present, else append. -/
def docSet (d : Doc) (k : String) (v : Value) : Doc :=
  match d with
  | [] => [(k, v)]
  | (k', v') :: rest => if k' = k then (k, v) :: rest else (k', v') :: docSet rest k v

/-- `serialize` from `main.py`:
```
def serialize(doc: dict):
    if not doc:
        return doc
    doc["id"] = str(doc.pop("_id"))
    return doc
```
The input `Option Doc` distinguishes `None` (`none`) from a dict; the outer
`Option` of the result is `none` when the function raises (the `KeyError` of
`doc.pop("_id")` on a non-empty dict without `"_id"`). -/
def serialize (doc : Option Doc) : Option (Option Doc) :=
  match doc with
  | none => some none
  | some d =>
    if d = [] then some (some d)
    else
      match docGet d "_id" with
      | none => none
      | some v => some (some (docSet (docErase d "_id") "id" (Value.vStr (valueStr v))))

/-! ### ObjectId parsing (`to_obj_id`) -/

/-- Hexadecimal digit, either case (what `ObjectId(s)` accepts per character). -/
def isHexChar (c : Char) : Bool :=
  c.isDigit || ('a' ≤ c && c ≤ 'f') || ('A' ≤ c && c ≤ 'F')

/-- `ObjectId(s)` succeeds iff `s` is a 24-character hex string. -/
def isValidOid (s : String) : Bool :=
  s.data.length == 24 && s.data.all isHexChar

/-- Lower-casing of a string (the canonical form `str(ObjectId(s))` returns). -/
def strLower (s : String) : String := ⟨s.data.map Char.toLower⟩

/-- `to_obj_id` from `main.py`, composed with `str`: `none` models the
`HTTPException(400, "Invalid id")` raised on a malformed id; on success the
ObjectId is represented by its canonical (lower-case) hex string. -/
def parseOid (s : String) : Option String :=
  if isValidOid s then some (strLower s) else none

/-! ### Collections and database state -/

/-- A `restaurant` document (fields of `schemas.Restaurant` plus `_id`).
Pydantic defaults are the field defaults.  `delivery_fee` is `Option` because
`create_order` reads it with `rest.get("delivery_fee", 0)`. -/
structure RestaurantDoc where
  oid : String
  name : String
  description : Option String := none
  cuisine : Option String := none
  image_url : Option String := none
  rating : Option ℚ := some 4.5
  delivery_fee : Option ℚ := some 2.99
  eta_minutes : Option Nat := some 30
deriving DecidableEq, Repr

/-- A `menuitem` document.  `price` is `Option` because the store is
schema-less and `create_order` reads it with `doc.get("price", 0)`. -/
structure MenuItemDoc where
  oid : String
  restaurant_id : String
  name : String
  description : Option String := none
  price : Option ℚ
  image_url : Option String := none
  is_veg : Bool := false
  spicy_level : Nat := 0
deriving DecidableEq, Repr

/-- `schemas.OrderItem`. -/
structure OrderItem where
  menu_item_id : String
  quantity : Nat
deriving DecidableEq, Repr

/-- An `order` document (fields of `schemas.Order` plus `_id`). -/
structure OrderDoc where
  oid : String
  restaurant_id : String
  customer_id : Option String := none
  customer_name : Option String := none
  customer_address : Option String := none
  customer_email : Option String := none
  items : List OrderItem
  subtotal : ℚ
  delivery_fee : ℚ
  total : ℚ
  status : String
deriving DecidableEq, Repr

/-- The three active collections plus the id-generation counter. -/
structure DB where
  restaurants : List RestaurantDoc
  menuitems : List MenuItemDoc
  orders : List OrderDoc
  nextId : Nat
deriving DecidableEq, Repr

def emptyDB : DB := ⟨[], [], [], 0⟩

/-- HTTP errors raised by the handlers we model. -/
inductive Err where
  | badRequest : String → Err
  | notFound : String → Err
deriving DecidableEq, Repr

/-- The HTTP status code of an error. -/
def Err.status : Err → Nat
  | badRequest _ => 400
  | notFound _ => 404

/-! ### Id generation (`create_document` assigns a fresh `_id`) -/

/-- Lower-case hex digit for `n < 16`. -/
def hexChar (n : Nat) : Char :=
  if n < 10 then Char.ofNat (48 + n) else Char.ofNat (87 + n)

/-- `k` hex digits of `n`, most significant first. -/
def hexDigits : Nat → Nat → List Char
  | 0, _ => []
  | k + 1, n => hexDigits k (n / 16) ++ [hexChar (n % 16)]

/-- The `n`-th generated ObjectId: `n` as a 24-digit lower-case hex string. -/
def genOid (n : Nat) : String := ⟨hexDigits 24 n⟩

/-- Draw a fresh id from the database state. -/
def freshId (db : DB) : String × DB :=
  (genOid db.nextId, { db with nextId := db.nextId + 1 })

/-! ### `POST /seed` (`seed_sample_data`) -/

/-- `seed_sample_data` from `main.py`: if the `restaurant` collection is empty,
insert 2 restaurants and 4 menu items with the fixed sample data; otherwise do
nothing. -/
def seed_sample_data (db : DB) : DB :=
  if db.restaurants.length = 0 then
    let (r1_id, db) := freshId db
    let db := { db with restaurants := db.restaurants ++
      [{ oid := r1_id, name := "Pasta Palace",
         description := some "Authentic Italian pastas and pizzas",
         cuisine := some "Italian",
         image_url := some "https://images.unsplash.com/photo-1603133872878-684f208fb84f",
         rating := some 4.7, delivery_fee := some 2.99, eta_minutes := some 30 }] }
    let (r2_id, db) := freshId db
    let db := { db with restaurants := db.restaurants ++
      [{ oid := r2_id, name := "Spice Route",
         description := some "North Indian curries and tandoori",
         cuisine := some "Indian",
         image_url := some "https://images.unsplash.com/photo-1604908177673-3f4f5463f2ef",
         rating := some 4.6, delivery_fee := some 3.49, eta_minutes := some 35 }] }
    let (m1_id, db) := freshId db
    let db := { db with menuitems := db.menuitems ++
      [{ oid := m1_id, restaurant_id := r1_id, name := "Margherita Pizza",
         description := some "Classic with fresh basil", price := some 12.99,
         image_url := some "https://images.unsplash.com/photo-1548365328-9f547fb09530" }] }
    let (m2_id, db) := freshId db
    let db := { db with menuitems := db.menuitems ++
      [{ oid := m2_id, restaurant_id := r1_id, name := "Fettuccine Alfredo",
         description := some "Creamy parmesan sauce", price := some 14.5,
         image_url := some "https://images.unsplash.com/photo-1529042410759-befb1204b468" }] }
    let (m3_id, db) := freshId db
    let db := { db with menuitems := db.menuitems ++
      [{ oid := m3_id, restaurant_id := r2_id, name := "Butter Chicken",
         description := some "Rich tomato gravy", price := some 13.99,
         image_url := some "https://images.unsplash.com/photo-1588167056547-c183313da70a" }] }
    let (m4_id, db) := freshId db
    { db with menuitems := db.menuitems ++
      [{ oid := m4_id, restaurant_id := r2_id, name := "Paneer Tikka",
         description := some "Grilled cottage cheese", price := some 11.25, is_veg := true,
         image_url := some "https://images.unsplash.com/photo-1596797038530-2c107229f829" }] }
  else db

/-! ### `GET /restaurants/{id}/menu` (`get_menu`) -/

/-- `get_menu` from `main.py`: filter the `menuitem` collection by comparing
the stored `restaurant_id` field with the raw path string.  It performs no id
parsing and never raises, so it always returns `.ok`. -/
def get_menu (db : DB) (restaurant_id : String) : Except Err (List MenuItemDoc) :=
  .ok (db.menuitems.filter (fun d => d.restaurant_id == restaurant_id))

/-! ### `POST /orders` (`create_order`) -/

/-- The `CreateOrder` request body. -/
structure CreateOrder where
  restaurant_id : String
  items : List OrderItem
  customer_name : String
  customer_address : String
  customer_email : Option String := none
deriving DecidableEq, Repr

/-- The JSON body returned on success. -/
structure OrderResponse where
  id : String
  status : String
  total : ℚ
deriving DecidableEq, Repr

/-- Python `round(q, 2)` on exact values. -/
def round2 (q : ℚ) : ℚ := (round (q * 100) : ℤ) / 100

/-- The list comprehension `[to_obj_id(i.menu_item_id) for i in payload.items]`:
parses every submitted id, raising 400 "Invalid id" at the first malformed one. -/
def parseIds : List OrderItem → Except Err (List String)
  | [] => .ok []
  | i :: rest =>
    match parseOid i.menu_item_id with
    | none => .error (.badRequest "Invalid id")
    | some c => (parseIds rest).map (fun cs => c :: cs)

/-- Lookup in the dict `menu_docs = {str(d["_id"]): d for d in ...}`: for
duplicate keys a dict comprehension keeps the last binding (the store's `_id`
is unique, so duplicates do not arise from a real store). -/
def dictGet (docs : List MenuItemDoc) (k : String) : Option MenuItemDoc :=
  docs.reverse.find? (fun d => d.oid == k)

/-- The subtotal loop of `create_order`: for each submitted item look its menu
item up by the raw id string, failing 400 "Menu item not found" when absent,
and accumulate `float(doc.get("price", 0)) * it.quantity`. -/
def computeSubtotal (docs : List MenuItemDoc) : List OrderItem → Except Err ℚ
  | [] => .ok 0
  | it :: rest =>
    match dictGet docs it.menu_item_id with
    | none => .error (.badRequest "Menu item not found")
    | some d => (computeSubtotal docs rest).map
        (fun s => (d.price.getD 0) * (it.quantity : ℚ) + s)

/-- Lines 152–171 of `main.py`: resolve the restaurant (400 on a malformed id,
404 when absent), compute the total, persist the order, return the response. -/
def restaurantPhase (db : DB) (p : CreateOrder) (subtotal : ℚ) :
    Except Err (DB × OrderResponse) :=
  match parseOid p.restaurant_id with
  | none => .error (.badRequest "Invalid id")
  | some c =>
    match db.restaurants.find? (fun r => r.oid == c) with
    | none => .error (.notFound "Restaurant not found")
    | some rest =>
      let delivery_fee := rest.delivery_fee.getD 0
      let total := round2 (subtotal + delivery_fee)
      let order_doc : OrderDoc :=
        { oid := genOid db.nextId,
          restaurant_id := p.restaurant_id,
          customer_name := some p.customer_name,
          customer_address := some p.customer_address,
          customer_email := p.customer_email,
          items := p.items,
          subtotal := round2 subtotal,
          delivery_fee := delivery_fee,
          total := total,
          status := "pending" }
      .ok ({ db with orders := db.orders ++ [order_doc], nextId := db.nextId + 1 },
           { id := genOid db.nextId, status := "pending", total := total })

/-- `create_order` from `main.py`: parse all submitted ids, batch-fetch the
referenced menu items, fail 400 when none resolved, run the subtotal loop,
then the restaurant phase.  An `.error` result models an `HTTPException`
raised before anything is persisted. -/
def create_order (db : DB) (p : CreateOrder) : Except Err (DB × OrderResponse) :=
  match parseIds p.items with
  | .error e => .error e
  | .ok ids =>
    let menu_docs := db.menuitems.filter (fun d => ids.contains d.oid)
    if menu_docs = [] then .error (.badRequest "Invalid items")
    else
      match computeSubtotal menu_docs p.items with
      | .error e => .error e
      | .ok subtotal => restaurantPhase db p subtotal

/-! ### Specification-side views used by the theorems -/

/-- The menu item a submitted id resolves to: the stored document whose
canonical id string equals the given string. -/
def resolveItem (db : DB) (s : String) : Option MenuItemDoc :=
  db.menuitems.find? (fun d => d.oid == s)

/-- The restaurant a canonical id resolves to. -/
def resolveRestaurant (db : DB) (s : String) : Option RestaurantDoc :=
  db.restaurants.find? (fun r => r.oid == s)

/-- The amount one order line contributes to the subtotal:
`price × quantity`, with a missing price read as 0 (`doc.get("price", 0)`). -/
def lineAmount (db : DB) (i : OrderItem) : ℚ :=
  (match resolveItem db i.menu_item_id with
   | some d => d.price.getD 0
   | none => 0) * (i.quantity : ℚ)

/-- `Σ (menuItem.price × item.quantity)` over the submitted items. -/
def subtotalSpec (db : DB) (items : List OrderItem) : ℚ :=
  (items.map (lineAmount db)).sum

/-- Store invariant: every stored menu-item id string is a canonical ObjectId
string (24 lower-case hex characters), as `str(ObjectId)` always produces. -/
abbrev canonicalMenu (db : DB) : Prop :=
  ∀ d ∈ db.menuitems, parseOid d.oid = some d.oid

/-- Store invariant: `_id` is unique within the `menuitem` collection. -/
abbrev nodupMenu (db : DB) : Prop :=
  (db.menuitems.map MenuItemDoc.oid).Nodup

/-! ### Concrete fixtures used by witnesses -/

/-- The database produced by `POST /seed` on an empty store. -/
def seededDB : DB := seed_sample_data emptyDB

/-- The scenario order: 2 × Margherita Pizza + 1 × Fettuccine Alfredo from
Pasta Palace (ids as generated by the seeding run). -/
def scenarioPayload : CreateOrder :=
  { restaurant_id := genOid 0,
    items := [⟨genOid 2, 2⟩, ⟨genOid 3, 1⟩],
    customer_name := "Alice", customer_address := "1 Main St" }

/-! ### Lemmas about documents and `serialize` -/

theorem docGet_cons (k' : String) (v' : Value) (rest : Doc) (k : String) :
    docGet ((k', v') :: rest) k = if k' = k then some v' else docGet rest k := by
  by_cases h : k' = k
  · simp [docGet, List.find?, h]
  · have hb : (k' == k) = false := by simpa using h
    simp [docGet, List.find?, hb, h]

theorem docGet_eq_none_of_not_mem (d : Doc) (k : String)
    (h : k ∉ d.map Prod.fst) : docGet d k = none := by
  induction d with
  | nil => rfl
  | cons kv rest ih =>
    obtain ⟨k', v'⟩ := kv
    simp only [List.map_cons, List.mem_cons, not_or] at h
    rw [docGet_cons, if_neg (fun hh => h.1 hh.symm), ih h.2]

theorem docGet_docErase_self (d : Doc) (k : String)
    (hnd : (d.map Prod.fst).Nodup) : docGet (docErase d k) k = none := by
  induction d with
  | nil => rfl
  | cons kv rest ih =>
    obtain ⟨k', v'⟩ := kv
    simp only [List.map_cons, List.nodup_cons] at hnd
    rw [docErase]
    by_cases h : k' = k
    · rw [if_pos h]
      exact docGet_eq_none_of_not_mem rest k (h ▸ hnd.1)
    · rw [if_neg h, docGet_cons, if_neg h]
      exact ih hnd.2

theorem docGet_docErase_ne (d : Doc) (k k' : String) (h : k' ≠ k) :
    docGet (docErase d k) k' = docGet d k' := by
  induction d with
  | nil => rfl
  | cons kv rest ih =>
    obtain ⟨k₀, v₀⟩ := kv
    rw [docErase]
    by_cases h0 : k₀ = k
    · rw [if_pos h0, docGet_cons, if_neg (h0 ▸ fun hh => h hh.symm)]
    · rw [if_neg h0, docGet_cons, docGet_cons, ih]

theorem docGet_docSet_self (d : Doc) (k : String) (v : Value) :
    docGet (docSet d k v) k = some v := by
  induction d with
  | nil => simp [docSet, docGet_cons]
  | cons kv rest ih =>
    obtain ⟨k₀, v₀⟩ := kv
    rw [docSet]
    by_cases h0 : k₀ = k
    · simp [if_pos h0, docGet_cons]
    · rw [if_neg h0, docGet_cons, if_neg h0, ih]

theorem docGet_docSet_ne (d : Doc) (k k' : String) (v : Value) (h : k' ≠ k) :
    docGet (docSet d k v) k' = docGet d k' := by
  induction d with
  | nil =>
    rw [docSet, docGet_cons, if_neg (fun hh => h hh.symm)]
  | cons kv rest ih =>
    obtain ⟨k₀, v₀⟩ := kv
    rw [docSet]
    by_cases h0 : k₀ = k
    · rw [if_pos h0, docGet_cons, docGet_cons,
        if_neg (fun hh => h hh.symm), if_neg (h0 ▸ fun hh => h hh.symm)]
    · rw [if_neg h0, docGet_cons, docGet_cons, ih]

/-- Claim C6 (amended): `serialize` returns `None` and the empty dict
unchanged; on a populated record with an internal `_id` field (and unique
keys, as in any Python dict), it removes `_id`, sets a string `id` field to
the string form of the removed identifier, and leaves every field other than
`_id` — and other than any pre-existing `id` field, which the assignment
overwrites — unaltered. -/
theorem serialize_spec (d : Doc) (v : Value) (k : String)
    (hnd : (d.map Prod.fst).Nodup) (hv : docGet d "_id" = some v)
    (hk1 : k ≠ "_id") (hk2 : k ≠ "id") :
    serialize none = some none ∧
    serialize (some []) = some (some []) ∧
    serialize (some d) =
      some (some (docSet (docErase d "_id") "id" (Value.vStr (valueStr v)))) ∧
    docGet (docSet (docErase d "_id") "id" (Value.vStr (valueStr v))) "id"
      = some (Value.vStr (valueStr v)) ∧
    docGet (docSet (docErase d "_id") "id" (Value.vStr (valueStr v))) "_id" = none ∧
    docGet (docSet (docErase d "_id") "id" (Value.vStr (valueStr v))) k = docGet d k := by
  have hdne : d ≠ [] := by
    intro hnil
    rw [hnil] at hv
    exact Option.noConfusion hv
  refine ⟨rfl, rfl, ?_, ?_, ?_, ?_⟩
  · rw [serialize, if_neg hdne, hv]
  · exact docGet_docSet_self ..
  · rw [docGet_docSet_ne _ _ _ _ (by decide)]
    exact docGet_docErase_self d "_id" hnd
  · rw [docGet_docSet_ne _ _ _ _ hk2]
    exact docGet_docErase_ne d "_id" k hk1

/-- Witness for the amended C6 on a concrete populated record. -/
theorem serialize_spec_witness :
    serialize none = some none ∧
    serialize (some ([] : Doc)) = some (some ([] : Doc)) ∧
    serialize (some [("_id", Value.vOid "64b0c0ffee00aa11bb22cc33"), ("name", Value.vStr "Bo")]) =
      some (some (docSet (docErase [("_id", Value.vOid "64b0c0ffee00aa11bb22cc33"),
        ("name", Value.vStr "Bo")] "_id") "id"
        (Value.vStr (valueStr (Value.vOid "64b0c0ffee00aa11bb22cc33"))))) ∧
    docGet (docSet (docErase [("_id", Value.vOid "64b0c0ffee00aa11bb22cc33"),
        ("name", Value.vStr "Bo")] "_id") "id"
        (Value.vStr (valueStr (Value.vOid "64b0c0ffee00aa11bb22cc33")))) "id"
      = some (Value.vStr (valueStr (Value.vOid "64b0c0ffee00aa11bb22cc33"))) ∧
    docGet (docSet (docErase [("_id", Value.vOid "64b0c0ffee00aa11bb22cc33"),
        ("name", Value.vStr "Bo")] "_id") "id"
        (Value.vStr (valueStr (Value.vOid "64b0c0ffee00aa11bb22cc33")))) "_id" = none ∧
    docGet (docSet (docErase [("_id", Value.vOid "64b0c0ffee00aa11bb22cc33"),
        ("name", Value.vStr "Bo")] "_id") "id"
        (Value.vStr (valueStr (Value.vOid "64b0c0ffee00aa11bb22cc33")))) "name"
      = docGet [("_id", Value.vOid "64b0c0ffee00aa11bb22cc33"), ("name", Value.vStr "Bo")] "name" :=
  serialize_spec [("_id", Value.vOid "64b0c0ffee00aa11bb22cc33"), ("name", Value.vStr "Bo")]
    (Value.vOid "64b0c0ffee00aa11bb22cc33") "name" (by decide) (by decide) (by decide) (by decide)

/-- Claim C6 (counterexample): on a record that already carries an `id` field
alongside `_id`, `serialize` overwrites that pre-existing `id` field, so it
does not leave "every other field" unaltered. -/
theorem serialize_clobbers_existing_id :
    serialize (some [("_id", Value.vOid "64b0c0ffee00aa11bb22cc33"), ("id", Value.vStr "old")]) =
      some (some [("id", Value.vStr "64b0c0ffee00aa11bb22cc33")]) ∧
    docGet [("id", Value.vStr "64b0c0ffee00aa11bb22cc33")] "id" ≠
      docGet [("_id", Value.vOid "64b0c0ffee00aa11bb22cc33"), ("id", Value.vStr "old")] "id" := by
  exact ⟨by decide, by decide⟩

/-- Claim C9: on a non-empty record without the internal `_id` field,
`serialize` raises (the unguarded `doc.pop("_id")` fails with `KeyError`),
modelled as the `none` result. -/
theorem serialize_missing_oid_raises (d : Doc) (hne : d ≠ [])
    (h : docGet d "_id" = none) : serialize (some d) = none := by
  rw [serialize, if_neg hne, h]

/-- Witness for C9 at a concrete record with no `_id`. -/
theorem serialize_missing_oid_raises_witness :
    serialize (some [("name", Value.vStr "x")]) = none :=
  serialize_missing_oid_raises [("name", Value.vStr "x")] (by decide) (by decide)

/-! ### `GET /restaurants/{id}/menu` -/

/-- Claim C7: `get_menu` filters the stored `menuitem` documents by comparing
their `restaurant_id` field with the raw path string (no id parsing), and when
nothing matches it returns `.ok []` — an empty 200 response, never a 404 and
never an invalid-id 400. -/
theorem get_menu_raw_string (db : DB) (rid : String) :
    get_menu db rid = .ok (db.menuitems.filter (fun d => d.restaurant_id == rid)) ∧
    ((∀ d ∈ db.menuitems, d.restaurant_id ≠ rid) → get_menu db rid = .ok []) := by
  refine ⟨rfl, fun h => ?_⟩
  have hfil : db.menuitems.filter (fun d => d.restaurant_id == rid) = [] := by
    rw [List.filter_eq_nil_iff]
    intro a ha
    simpa using h a ha
  rw [get_menu, hfil]

/-- Witness for C7: a malformed, unmatched path id still yields an empty 200
on the seeded store. -/
theorem get_menu_raw_string_witness :
    get_menu seededDB "no-such-restaurant" = .ok [] :=
  (get_menu_raw_string seededDB "no-such-restaurant").2 (by decide)

/-! ### `POST /seed` idempotence -/

/-- Claim C5: seeding an empty store leaves 2 restaurants and 4 menu items,
and a second run is a no-op (the `restaurant` collection is non-empty), so the
counts stay 2 and 4. -/
theorem seed_sample_data_idempotent :
    (seed_sample_data emptyDB).restaurants.length = 2 ∧
    (seed_sample_data emptyDB).menuitems.length = 4 ∧
    seed_sample_data (seed_sample_data emptyDB) = seed_sample_data emptyDB ∧
    (seed_sample_data (seed_sample_data emptyDB)).restaurants.length = 2 ∧
    (seed_sample_data (seed_sample_data emptyDB)).menuitems.length = 4 := by
  refine ⟨by decide, by decide, ?_, by decide, by decide⟩
  with_unfolding_all rfl

/-! ### `POST /orders`: empty item list (C4) and item-before-restaurant
ordering (C2 counterexample) -/

/-- Claim C4: an order with an empty items list fails 400 "Invalid items":
no ids are parsed, the batch fetch returns nothing, and the emptiness check
fires; nothing is persisted. -/
theorem create_order_empty_items (db : DB) (p : CreateOrder) (h : p.items = []) :
    create_order db p = .error (.badRequest "Invalid items") := by
  have hfil : db.menuitems.filter (fun d => ([] : List String).contains d.oid) = [] := by
    rw [List.filter_eq_nil_iff]
    intro a _
    simp [List.contains]
  rw [create_order, h]
  simp [parseIds, hfil]

/-- Witness for C4 on the seeded store. -/
theorem create_order_empty_items_witness :
    create_order seededDB
      { restaurant_id := genOid 0, items := [], customer_name := "Dan",
        customer_address := "4 Pine Rd" } = .error (.badRequest "Invalid items") :=
  create_order_empty_items seededDB _ rfl

/-- A payload whose restaurant does not exist and whose single item id is
malformed. -/
def badItemPayload : CreateOrder :=
  { restaurant_id := genOid 0, items := [⟨"bad", 1⟩],
    customer_name := "Bob", customer_address := "2 Oak Ave" }

/-- Claim C2 (counterexample): with an empty store — so the referenced
restaurant does not exist — and a malformed item id, `create_order` fails 400
"Invalid id" (the item ids are parsed on line 141 before the restaurant lookup
on line 152), not 404 as the claim requires. -/
theorem create_order_item_check_precedes_restaurant :
    emptyDB.restaurants = [] ∧
    create_order emptyDB badItemPayload = .error (.badRequest "Invalid id") ∧
    (Err.badRequest "Invalid id").status ≠ 404 := by
  exact ⟨rfl, rfl, by decide⟩

/-! ### Lemmas about the item-validation phase of `create_order` -/

theorem parseIds_ok_of (l : List OrderItem)
    (h : ∀ i ∈ l, parseOid i.menu_item_id = some i.menu_item_id) :
    parseIds l = .ok (l.map OrderItem.menu_item_id) := by
  induction l with
  | nil => rfl
  | cons i rest ih =>
    simp only [parseIds, h i (List.mem_cons_self i rest),
      ih (fun j hj => h j (List.mem_cons_of_mem i hj)), Except.map, List.map_cons]

theorem parseIds_error_eq (l : List OrderItem) (e : Err)
    (h : parseIds l = .error e) : e = .badRequest "Invalid id" := by
  induction l generalizing e with
  | nil => exact Except.noConfusion h
  | cons i rest ih =>
    cases hpo : parseOid i.menu_item_id with
    | none =>
      simp only [parseIds, hpo] at h
      exact (Except.error.inj h).symm
    | some c =>
      cases hrest : parseIds rest with
      | error e' =>
        simp only [parseIds, hpo, hrest, Except.map] at h
        exact (Except.error.inj h) ▸ ih e' hrest
      | ok cs =>
        simp only [parseIds, hpo, hrest, Except.map] at h
        exact Except.noConfusion h

theorem parseIds_mem (l : List OrderItem) (ids : List String)
    (h : parseIds l = .ok ids) (i : OrderItem) (hi : i ∈ l) :
    ∃ c, parseOid i.menu_item_id = some c ∧ c ∈ ids := by
  induction l generalizing ids with
  | nil => cases hi
  | cons a rest ih =>
    cases hpo : parseOid a.menu_item_id with
    | none =>
      simp only [parseIds, hpo] at h
      exact Except.noConfusion h
    | some c =>
      cases hrest : parseIds rest with
      | error e' =>
        simp only [parseIds, hpo, hrest, Except.map] at h
        exact Except.noConfusion h
      | ok cs =>
        simp only [parseIds, hpo, hrest, Except.map] at h
        have hids : c :: cs = ids := Except.ok.inj h
        rcases List.mem_cons.mp hi with h1 | h1
        · exact ⟨c, h1 ▸ hpo, hids ▸ List.mem_cons_self c cs⟩
        · obtain ⟨c', hc'1, hc'2⟩ := ih cs hrest h1
          exact ⟨c', hc'1, hids ▸ List.mem_cons_of_mem c hc'2⟩

theorem resolveItem_mem (db : DB) (s : String) (d : MenuItemDoc)
    (h : resolveItem db s = some d) : d ∈ db.menuitems ∧ d.oid = s :=
  ⟨List.mem_of_find?_eq_some h, by simpa using List.find?_some h⟩

theorem resolveItem_none (db : DB) (s : String) (h : resolveItem db s = none) :
    ∀ d ∈ db.menuitems, d.oid ≠ s := by
  rw [resolveItem, List.find?_eq_none] at h
  intro d hd
  simpa using h d hd

theorem menu_oid_unique (db : DB) (hnd : nodupMenu db) {a b : MenuItemDoc}
    (ha : a ∈ db.menuitems) (hb : b ∈ db.menuitems) (hoid : a.oid = b.oid) :
    a = b :=
  List.inj_on_of_nodup_map hnd ha hb hoid

theorem dictGet_eq_some_imp (docs : List MenuItemDoc) (k : String) (d : MenuItemDoc)
    (h : dictGet docs k = some d) : d ∈ docs ∧ d.oid = k :=
  ⟨List.mem_reverse.mp (List.mem_of_find?_eq_some h), by simpa using List.find?_some h⟩

theorem dictGet_isSome_of (docs : List MenuItemDoc) (k : String) (d : MenuItemDoc)
    (hd : d ∈ docs) (hk : d.oid = k) : (dictGet docs k).isSome := by
  rw [dictGet, List.find?_isSome]
  exact ⟨d, List.mem_reverse.mpr hd, by simp [hk]⟩

theorem dictGet_filter (db : DB) (hnd : nodupMenu db) (ids : List String)
    (k : String) (d : MenuItemDoc) (hd : d ∈ db.menuitems) (hk : d.oid = k)
    (hin : ids.contains d.oid) :
    dictGet (db.menuitems.filter (fun x => ids.contains x.oid)) k = some d := by
  have hmem : d ∈ db.menuitems.filter (fun x => ids.contains x.oid) :=
    List.mem_filter.mpr ⟨hd, hin⟩
  obtain ⟨d', hd'⟩ := Option.isSome_iff_exists.mp (dictGet_isSome_of _ k d hmem hk)
  obtain ⟨hd'mem, hd'oid⟩ := dictGet_eq_some_imp _ _ _ hd'
  have heq : d' = d :=
    menu_oid_unique db hnd (List.mem_filter.mp hd'mem).1 hd (by rw [hd'oid, hk])
  rw [hd', heq]

theorem dictGet_filter_none (db : DB) (hcanon : canonicalMenu db)
    (ids : List String) (k cj : String) (hpo : parseOid k = some cj)
    (hnone : resolveItem db cj = none) :
    dictGet (db.menuitems.filter (fun x => ids.contains x.oid)) k = none := by
  cases h : dictGet (db.menuitems.filter (fun x => ids.contains x.oid)) k with
  | none => rfl
  | some d =>
    exfalso
    obtain ⟨hdmem, hdoid⟩ := dictGet_eq_some_imp _ _ _ h
    have hdm : d ∈ db.menuitems := (List.mem_filter.mp hdmem).1
    have hcan : parseOid k = some k := by
      have := hcanon d hdm
      rwa [hdoid] at this
    have hkc : cj = k := by
      rw [hcan] at hpo
      exact (Option.some.inj hpo).symm
    exact resolveItem_none db cj hnone d hdm (by rw [hdoid, hkc])

theorem computeSubtotal_ok (db : DB) (docs : List MenuItemDoc)
    (items : List OrderItem)
    (h : ∀ i ∈ items, ∃ d, dictGet docs i.menu_item_id = some d ∧
      resolveItem db i.menu_item_id = some d) :
    computeSubtotal docs items = .ok (subtotalSpec db items) := by
  induction items with
  | nil => rfl
  | cons i rest ih =>
    obtain ⟨d, hdict, hres⟩ := h i (List.mem_cons_self i rest)
    simp only [computeSubtotal, hdict,
      ih (fun j hj => h j (List.mem_cons_of_mem i hj)), Except.map]
    simp [subtotalSpec, lineAmount, hres]

theorem computeSubtotal_error_of (docs : List MenuItemDoc)
    (items : List OrderItem) (j : OrderItem) (hj : j ∈ items)
    (hnone : dictGet docs j.menu_item_id = none) :
    computeSubtotal docs items = .error (.badRequest "Menu item not found") := by
  induction items with
  | nil => cases hj
  | cons i rest ih =>
    simp only [computeSubtotal]
    cases hdict : dictGet docs i.menu_item_id with
    | none => rfl
    | some d =>
      have hjr : j ∈ rest := by
        rcases List.mem_cons.mp hj with h1 | h1
        · exact absurd (h1 ▸ hdict) (by rw [hnone]; exact fun hh => Option.noConfusion hh)
        · exact h1
      rw [ih hjr]
      rfl

/-- After successful item validation (every submitted id resolves against a
store with canonical, unique ids), `create_order` reaches the restaurant
phase with exactly `Σ price×quantity` as the accumulated subtotal. -/
theorem create_order_items_ok (db : DB) (p : CreateOrder)
    (hnd : nodupMenu db) (hcanon : canonicalMenu db)
    (hne : p.items ≠ [])
    (hres : ∀ i ∈ p.items, (resolveItem db i.menu_item_id).isSome) :
    create_order db p = restaurantPhase db p (subtotalSpec db p.items) := by
  have hres' : ∀ i ∈ p.items, ∃ d, resolveItem db i.menu_item_id = some d :=
    fun i hi => Option.isSome_iff_exists.mp (hres i hi)
  have hcanon' : ∀ i ∈ p.items, parseOid i.menu_item_id = some i.menu_item_id := by
    intro i hi
    obtain ⟨d, hd⟩ := hres' i hi
    obtain ⟨hdm, hdo⟩ := resolveItem_mem db _ d hd
    have := hcanon d hdm
    rwa [hdo] at this
  have hpids := parseIds_ok_of p.items hcanon'
  have hcontains : ∀ i ∈ p.items, ∀ d : MenuItemDoc, d.oid = i.menu_item_id →
      (p.items.map OrderItem.menu_item_id).contains d.oid = true := by
    intro i hi d hdo
    show List.elem d.oid (p.items.map OrderItem.menu_item_id) = true
    exact List.elem_iff.mpr (hdo ▸ List.mem_map_of_mem OrderItem.menu_item_id hi)
  obtain ⟨i0, hi0⟩ := List.exists_mem_of_ne_nil p.items hne
  obtain ⟨d0, hd0⟩ := hres' i0 hi0
  obtain ⟨hd0m, hd0o⟩ := resolveItem_mem db _ _ hd0
  have hfne : db.menuitems.filter
      (fun d => (p.items.map OrderItem.menu_item_id).contains d.oid) ≠ [] :=
    List.ne_nil_of_mem (List.mem_filter.mpr ⟨hd0m, hcontains i0 hi0 d0 hd0o⟩)
  have hsub := computeSubtotal_ok db
    (db.menuitems.filter (fun d => (p.items.map OrderItem.menu_item_id).contains d.oid))
    p.items
    (by
      intro i hi
      obtain ⟨d, hd⟩ := hres' i hi
      obtain ⟨hdm, hdo⟩ := resolveItem_mem db _ _ hd
      exact ⟨d, dictGet_filter db hnd _ _ d hdm hdo (hcontains i hi d hdo), hd⟩)
  simp only [create_order, hpids]
  rw [if_neg hfne, hsub]

/-- Claim C1: for every order payload the handler accepts — all submitted ids
resolve to stored menu items (the store having canonical unique ids), the item
list is non-empty, and the restaurant id parses and resolves — the returned
total and the persisted order's total equal
`round2 (Σ price×quantity + delivery_fee)`, and the persisted subtotal equals
`round2 (Σ price×quantity)`. -/
theorem create_order_totals (db : DB) (p : CreateOrder) (c : String)
    (r : RestaurantDoc)
    (hnd : nodupMenu db) (hcanon : canonicalMenu db) (hne : p.items ≠ [])
    (hres : ∀ i ∈ p.items, (resolveItem db i.menu_item_id).isSome)
    (hc : parseOid p.restaurant_id = some c)
    (hr : resolveRestaurant db c = some r) :
    ∃ db2 resp o, create_order db p = .ok (db2, resp) ∧
      db2.orders = db.orders ++ [o] ∧
      resp.total = round2 (subtotalSpec db p.items + r.delivery_fee.getD 0) ∧
      o.total = round2 (subtotalSpec db p.items + r.delivery_fee.getD 0) ∧
      o.subtotal = round2 (subtotalSpec db p.items) := by
  rw [create_order_items_ok db p hnd hcanon hne hres, restaurantPhase]
  simp only [hc, show db.restaurants.find? (fun x => x.oid == c) = some r from hr]
  exact ⟨_, _, _, rfl, rfl, rfl, rfl, rfl⟩

/-- The restaurant document the seeding run stores for Pasta Palace. -/
def pastaPalaceDoc : RestaurantDoc :=
  { oid := genOid 0, name := "Pasta Palace",
    description := some "Authentic Italian pastas and pizzas",
    cuisine := some "Italian",
    image_url := some "https://images.unsplash.com/photo-1603133872878-684f208fb84f",
    rating := some 4.7, delivery_fee := some 2.99, eta_minutes := some 30 }

/-- Witness for C1 on the seeded store and the scenario payload. -/
theorem create_order_totals_witness :
    ∃ db2 resp o, create_order seededDB scenarioPayload = .ok (db2, resp) ∧
      db2.orders = seededDB.orders ++ [o] ∧
      resp.total = round2 (subtotalSpec seededDB scenarioPayload.items +
        pastaPalaceDoc.delivery_fee.getD 0) ∧
      o.total = round2 (subtotalSpec seededDB scenarioPayload.items +
        pastaPalaceDoc.delivery_fee.getD 0) ∧
      o.subtotal = round2 (subtotalSpec seededDB scenarioPayload.items) :=
  create_order_totals seededDB scenarioPayload (genOid 0) pastaPalaceDoc
    (by decide) (by decide) (by decide) (by decide) (by decide) rfl

/-- Claim C2 (amended): an order whose items all pass validation (non-empty,
every id resolving against a canonical store) but whose well-formed
restaurant id resolves to no restaurant fails 404 "Restaurant not found".
The original claim's "regardless of item validity" does not hold: item
validation runs first (line 141 before line 152) and fails 400. -/
theorem create_order_restaurant_not_found (db : DB) (p : CreateOrder)
    (c : String)
    (hnd : nodupMenu db) (hcanon : canonicalMenu db) (hne : p.items ≠ [])
    (hres : ∀ i ∈ p.items, (resolveItem db i.menu_item_id).isSome)
    (hc : parseOid p.restaurant_id = some c)
    (hr : resolveRestaurant db c = none) :
    create_order db p = .error (.notFound "Restaurant not found") ∧
    (Err.notFound "Restaurant not found").status = 404 := by
  refine ⟨?_, rfl⟩
  rw [create_order_items_ok db p hnd hcanon hne hres, restaurantPhase]
  simp only [hc, show db.restaurants.find? (fun x => x.oid == c) = none from hr]

/-- A payload with valid, resolving items but an absent restaurant. -/
def absentRestPayload : CreateOrder :=
  { restaurant_id := genOid 9, items := [⟨genOid 2, 2⟩, ⟨genOid 3, 1⟩],
    customer_name := "Eve", customer_address := "5 Birch Ln" }

/-- Witness for the amended C2 on the seeded store. -/
theorem create_order_restaurant_not_found_witness :
    create_order seededDB absentRestPayload = .error (.notFound "Restaurant not found") ∧
    (Err.notFound "Restaurant not found").status = 404 :=
  create_order_restaurant_not_found seededDB absentRestPayload (genOid 9)
    (by decide) (by decide) (by decide) (by decide) (by decide) (by decide)

/-- Claim C3: when at least one submitted item resolves to a stored menu item
but some item has a well-formed id resolving to no menu item, `create_order`
fails with an HTTP 400 error (`.error` — so nothing is persisted: the order
collection of the input state is returned unchanged in the sense that no
success value carrying a new state is produced). -/
theorem create_order_partial_miss (db : DB) (p : CreateOrder)
    (hcanon : canonicalMenu db)
    (hsome : ∃ i ∈ p.items, (resolveItem db i.menu_item_id).isSome)
    (hmiss : ∃ j ∈ p.items, ∃ cj, parseOid j.menu_item_id = some cj ∧
      resolveItem db cj = none) :
    ∃ e, create_order db p = .error e ∧ e.status = 400 := by
  cases hpids : parseIds p.items with
  | error e =>
    refine ⟨e, ?_, ?_⟩
    · rw [create_order, hpids]
    · rw [parseIds_error_eq p.items e hpids]
      rfl
  | ok ids =>
    obtain ⟨i, hi, hisome⟩ := hsome
    obtain ⟨d, hd⟩ := Option.isSome_iff_exists.mp hisome
    obtain ⟨hdm, hdo⟩ := resolveItem_mem db _ _ hd
    obtain ⟨ci, hci, hciin⟩ := parseIds_mem p.items ids hpids i hi
    have hcan : parseOid i.menu_item_id = some i.menu_item_id := by
      have := hcanon d hdm
      rwa [hdo] at this
    have hcieq : ci = i.menu_item_id := by
      rw [hcan] at hci
      exact (Option.some.inj hci).symm
    have hdin : ids.contains d.oid = true := by
      show List.elem d.oid ids = true
      exact List.elem_iff.mpr (by rw [hdo, ← hcieq]; exact hciin)
    have hfne : db.menuitems.filter (fun d => ids.contains d.oid) ≠ [] :=
      List.ne_nil_of_mem (List.mem_filter.mpr ⟨hdm, hdin⟩)
    obtain ⟨j, hj, cj, hcj, hcjnone⟩ := hmiss
    have hsubErr := computeSubtotal_error_of
      (db.menuitems.filter (fun d => ids.contains d.oid)) p.items j hj
      (dictGet_filter_none db hcanon ids _ cj hcj hcjnone)
    refine ⟨.badRequest "Menu item not found", ?_, rfl⟩
    simp only [create_order, hpids]
    rw [if_neg hfne, hsubErr]

/-- A payload mixing one resolving item with one well-formed but absent item. -/
def partialMissPayload : CreateOrder :=
  { restaurant_id := genOid 0, items := [⟨genOid 2, 1⟩, ⟨genOid 9, 1⟩],
    customer_name := "Fred", customer_address := "6 Cedar Ct" }

/-- Witness for C3 on the seeded store. -/
theorem create_order_partial_miss_witness :
    ∃ e, create_order seededDB partialMissPayload = .error e ∧ e.status = 400 :=
  create_order_partial_miss seededDB partialMissPayload (by decide)
    ⟨⟨genOid 2, 1⟩, by decide, by decide⟩
    ⟨⟨genOid 9, 1⟩, by decide, genOid 9, by decide, by decide⟩

/-- Claim C8: on the seeded data, ordering 2 × Margherita Pizza (12.99) and
1 × Fettuccine Alfredo (14.50) from Pasta Palace (delivery fee 2.99) succeeds
with persisted subtotal 40.48 and returned/persisted total 43.47. -/
theorem scenario_totals :
    ∃ db2 resp, create_order seededDB scenarioPayload = .ok (db2, resp) ∧
      resp.total = 43.47 ∧
      db2.orders.map OrderDoc.subtotal = [40.48] ∧
      db2.orders.map OrderDoc.total = [43.47] ∧
      (resolveRestaurant seededDB (genOid 0)).map RestaurantDoc.name =
        some "Pasta Palace" ∧
      (resolveRestaurant seededDB (genOid 0)).bind RestaurantDoc.delivery_fee =
        some 2.99 ∧
      (resolveItem seededDB (genOid 2)).map MenuItemDoc.name =
        some "Margherita Pizza" ∧
      (resolveItem seededDB (genOid 2)).bind MenuItemDoc.price = some 12.99 ∧
      (resolveItem seededDB (genOid 3)).map MenuItemDoc.name =
        some "Fettuccine Alfredo" ∧
      (resolveItem seededDB (genOid 3)).bind MenuItemDoc.price = some 14.5 := by
  refine ⟨_, _, rfl, ?_, ?_, ?_, ?_, ?_, ?_, ?_, ?_, ?_⟩ <;> with_unfolding_all rfl

/-- Claim C10: a resolved menu-item document without a `price` field does not
make order creation fail; the line contributes `0 × quantity` to the subtotal
(`doc.get("price", 0)`), and the order is persisted with the so-computed
subtotal. -/
theorem create_order_missing_price (db : DB) (p : CreateOrder) (c : String)
    (r : RestaurantDoc) (j : OrderItem)
    (hnd : nodupMenu db) (hcanon : canonicalMenu db) (hne : p.items ≠ [])
    (hres : ∀ i ∈ p.items, (resolveItem db i.menu_item_id).isSome)
    (hc : parseOid p.restaurant_id = some c)
    (hr : resolveRestaurant db c = some r)
    (hj : j ∈ p.items)
    (hjp : (resolveItem db j.menu_item_id).bind MenuItemDoc.price = none) :
    lineAmount db j = 0 ∧
    ∃ db2 resp o, create_order db p = .ok (db2, resp) ∧
      db2.orders = db.orders ++ [o] ∧
      o.subtotal = round2 (subtotalSpec db p.items) := by
  constructor
  · obtain ⟨d, hd⟩ := Option.isSome_iff_exists.mp (hres j hj)
    rw [hd] at hjp
    simp only [Option.some_bind] at hjp
    rw [lineAmount, hd]
    simp [hjp]
  · rw [create_order_items_ok db p hnd hcanon hne hres, restaurantPhase]
    simp only [hc, show db.restaurants.find? (fun x => x.oid == c) = some r from hr]
    exact ⟨_, _, _, rfl, rfl, rfl⟩

/-- A store whose single menu item lacks a `price` field. -/
def noPriceDB : DB :=
  { restaurants := [{ oid := genOid 0, name := "Test Diner", delivery_fee := some 5 }],
    menuitems := [{ oid := genOid 1, restaurant_id := genOid 0,
                    name := "Mystery Dish", price := none }],
    orders := [], nextId := 2 }

/-- An order for three units of the priceless dish. -/
def noPricePayload : CreateOrder :=
  { restaurant_id := genOid 0, items := [⟨genOid 1, 3⟩],
    customer_name := "Cara", customer_address := "3 Elm St" }

/-- Witness for C10 on the priceless store. -/
theorem create_order_missing_price_witness :
    lineAmount noPriceDB ⟨genOid 1, 3⟩ = 0 ∧
    ∃ db2 resp o, create_order noPriceDB noPricePayload = .ok (db2, resp) ∧
      db2.orders = noPriceDB.orders ++ [o] ∧
      o.subtotal = round2 (subtotalSpec noPriceDB noPricePayload.items) :=
  create_order_missing_price noPriceDB noPricePayload (genOid 0)
    { oid := genOid 0, name := "Test Diner", delivery_fee := some 5 } ⟨genOid 1, 3⟩
    (by decide) (by decide) (by decide) (by decide) (by decide) rfl
    (by decide) (by decide)

end FoodDelivery
